import Mathlib

/-!
Shallow embedding of the display/data scheduling core of RPI-Clock
(`src/clock.py`): numeric rounding at the weather-fetch boundary, the
render cache, the clock-phase tick loop, the weather retry policy, the
duty-cycle counter, the custom-message interval gate and the main-loop
fault recovery.  Machine floats are modelled with rationals; Python
`round` (banker's rounding) and `int()` (truncation toward zero) are
modelled explicitly.
-/

namespace RpiClock

/-- Constant `API_REFRESH_CYCLES` (clock.py line 27): number of duty
cycles between weather refetches. -/
def API_REFRESH_CYCLES : ℕ := 10

/-- Python `round` on a rational: round half to even (banker's rounding),
the semantics of Python 3 `round(x)` with one argument. -/
def pyRound (q : ℚ) : ℤ :=
  if q - ⌊q⌋ < 1/2 then ⌊q⌋
  else if 1/2 < q - ⌊q⌋ then ⌊q⌋ + 1
  else if (⌊q⌋ : ℤ) % 2 = 0 then ⌊q⌋ else ⌊q⌋ + 1

/-- Python `int()` on a rational: truncation toward zero. -/
def pyTrunc (q : ℚ) : ℤ :=
  if q < 0 then -⌊-q⌋ else ⌊q⌋

/-- Python `f"{n:02d}"`: decimal rendering zero-padded to a minimum
width of 2 (the sign counts toward the width, as in Python). -/
def pad2z (n : ℤ) : String :=
  if 0 ≤ n ∧ n < 10 then "0" ++ toString n else toString n

/-- Python `f"{n:2d}"`: decimal rendering space-padded to a minimum
width of 2. -/
def pad2sp (n : ℤ) : String :=
  if 0 ≤ n ∧ n < 10 then " " ++ toString n else toString n

/-- Python `s.rjust(4)`: pad on the left with spaces to a minimum
length of 4 characters. -/
def pyRjust4 (s : String) : String :=
  if s.length < 4 then String.mk (List.replicate (4 - s.length) ' ') ++ s else s

/-- The configured temperature unit (`temp_unit`, 'C' or 'F'). -/
inductive TempUnit
  | C
  | F
deriving DecidableEq

/-- String form of the unit as interpolated into display strings. -/
def TempUnit.toStr : TempUnit → String
  | .C => "C"
  | .F => "F"

/-- `celsius_to_fahrenheit` (clock.py lines 287-296): `(celsius * 9/5) + 32`
with `C_TO_F_FACTOR = 9/5` (line 191).  The result is a machine float,
modelled as a rational; no rounding happens here. -/
def celsius_to_fahrenheit (celsius : ℚ) : ℚ :=
  celsius * (9/5) + 32

/-- A weather reading as cached by `fetch_weather` (clock.py line 430):
the tuple `(temperature, feels_like, humidity)`.  After Fahrenheit
conversion the two temperatures are floats, hence rationals here;
humidity stays the integer produced by `int(round(...))`. -/
structure Reading where
  temperature : ℚ
  feels_like : ℚ
  humidity : ℤ

/-- The success path of `fetch_weather` (clock.py lines 419-430): each raw
field is rounded with `int(round(...))`, then, when the configured unit is
Fahrenheit, the two temperatures are converted with
`celsius_to_fahrenheit`. -/
def fetch_success_values (unit : TempUnit) (temp feels hum : ℚ) : Reading :=
  let temperature : ℤ := pyRound temp
  let feels_like : ℤ := pyRound feels
  let humidity : ℤ := pyRound hum
  match unit with
  | .C => ⟨(temperature : ℚ), (feels_like : ℚ), humidity⟩
  | .F => ⟨celsius_to_fahrenheit (temperature : ℚ),
           celsius_to_fahrenheit (feels_like : ℚ), humidity⟩

/-- Outcome of one HTTP attempt inside `fetch_weather`, as discriminated
by its `except` clauses (clock.py lines 432-467). -/
inductive AttemptResult
  | success (temp feels hum : ℚ)
  | timeout
  | connectionError
  | httpError (status : ℕ)
  | requestError
  | parseError

/-- The attempt outcomes that `fetch_weather` retries after a delay:
`requests.exceptions.Timeout`, `ConnectionError` and the generic
`RequestException` (clock.py lines 432-449 and 458-463). -/
def AttemptResult.isTransient : AttemptResult → Bool
  | .timeout => true
  | .connectionError => true
  | .requestError => true
  | _ => false

/-- One evaluation of the `for attempt in range(max_retries)` body of
`fetch_weather` together with the continuation to later attempts
(clock.py lines 408-467).  `outcomes i` is what the network does on
attempt `i` (0-based).  Returns the result, the number of attempts
performed and the number of inter-attempt `time.sleep(retry_delay)`
calls.  `fuel` is `max_retries - attempt`, so recursion is structural. -/
def fetch_weather_from (unit : TempUnit) (outcomes : ℕ → AttemptResult) :
    (fuel attempt : ℕ) → Option Reading × ℕ × ℕ
  | 0, _ => (none, 0, 0)
  | fuel + 1, attempt =>
    match outcomes attempt with
    | .success t f h => (some (fetch_success_values unit t f h), 1, 0)
    | .timeout =>
      if attempt < 3 - 1 then
        let r := fetch_weather_from unit outcomes fuel (attempt + 1)
        (r.1, r.2.1 + 1, r.2.2 + 1)
      else (none, 1, 0)
    | .connectionError =>
      if attempt < 3 - 1 then
        let r := fetch_weather_from unit outcomes fuel (attempt + 1)
        (r.1, r.2.1 + 1, r.2.2 + 1)
      else (none, 1, 0)
    | .requestError =>
      if attempt < 3 - 1 then
        let r := fetch_weather_from unit outcomes fuel (attempt + 1)
        (r.1, r.2.1 + 1, r.2.2 + 1)
      else (none, 1, 0)
    | .httpError _ => (none, 1, 0)
    | .parseError => (none, 1, 0)

/-- `fetch_weather` (clock.py lines 396-467) with `max_retries = 3`:
result, attempts performed, inter-attempt delays slept. -/
def fetch_weather (unit : TempUnit) (outcomes : ℕ → AttemptResult) :
    Option Reading × ℕ × ℕ :=
  fetch_weather_from unit outcomes 3 0

/-- `write_display` (clock.py lines 299-311) with the display present:
given the cached `last_display_text` and the submitted text, returns the
new cache and whether the hardware primitives `display.print` /
`display.show` were invoked. -/
def write_display (last : Option String) (text : String) :
    Option String × Bool :=
  if some text ≠ last then (some text, true) else (last, false)

/-- Fold `write_display` over a list of submitted texts, counting
hardware writes. -/
def runWrites (last : Option String) : List String → Option String × ℕ
  | [] => (last, 0)
  | t :: ts =>
    let step := write_display last t
    let rest := runWrites step.1 ts
    (rest.1, (if step.2 then 1 else 0) + rest.2)

/-- The number of values in the list that differ from their predecessor
(the predecessor of the head being the initial cache contents). -/
def changedCount (last : Option String) : List String → ℕ
  | [] => 0
  | t :: ts => (if some t ≠ last then 1 else 0) + changedCount (some t) ts

/-- The display text built by `display_temperature` (clock.py lines
329-341): sign and truncated magnitude, the unit appended, the whole
truncated to 4 characters and right-justified. -/
def display_temperature_text (temp : ℚ) (unit : TempUnit) : String :=
  let temp_str : String :=
    if temp < 0 then "-" ++ toString ⌊|temp|⌋ ++ unit.toStr
    else toString (pyTrunc temp) ++ unit.toStr
  pyRjust4 (temp_str.take 4)

/-- The signed integer magnitude that `display_temperature` shows:
`-int(abs(temp))` in the negative branch, `int(temp)` otherwise. -/
def display_temperature_value (temp : ℚ) : ℤ :=
  if temp < 0 then -⌊|temp|⌋ else pyTrunc temp

/-- The display text built by `display_humidity` (clock.py lines 359-370):
`f"rH{int(round(humidity)):02d}"`. -/
def display_humidity_text (humidity : ℚ) : String :=
  "rH" ++ pad2z (pyRound humidity)

/-- The fields of a `time.struct_time` the clock uses. -/
structure Tm where
  tm_hour : ℕ
  tm_min : ℕ

/-- The hour value rendered by `display_time` (clock.py lines 350-352):
`hour % 12 or 12` under 12-hour format, the raw hour otherwise. -/
def display_hour (fmt12 : Bool) (hour : ℕ) : ℕ :=
  if fmt12 then (if hour % 12 = 0 then 12 else hour % 12) else hour

/-- The text written by `display_time` (clock.py lines 344-356):
`f"{hour:2d}{minute:02d}"` computed from `time.localtime()` — the local
system time, not the NTP query. -/
def display_time_text (fmt12 : Bool) (localNow : Tm) : String :=
  pad2sp (display_hour fmt12 localNow.tm_hour) ++ pad2z (localNow.tm_min : ℤ)

/-- The environment `get_current_time` runs in: whether the NTP client
object was initialized, what a single NTP request returns (`none` for a
timeout/protocol error/any raised exception), local wall-clock time, and
how a transmit timestamp converts to local time. -/
structure TimeEnv where
  ntpClientReady : Bool
  ntpResponse : Option ℚ
  localNow : Tm
  localOf : ℚ → Tm

/-- `get_current_time` (clock.py lines 470-486): when the NTP client
exists and the single `ntp_client.request` call succeeds, the result is
`time.localtime(response.tx_time)`; on a missing client or any raised
failure it is `time.localtime()`.  No retry, no propagated exception. -/
def get_current_time (env : TimeEnv) : Tm :=
  if env.ntpClientReady then
    match env.ntpResponse with
    | some tx => env.localOf tx
    | none => env.localNow
  else env.localNow

/-- Number of NTP requests `get_current_time` issues in one call. -/
def get_current_time_queries (env : TimeEnv) : ℕ :=
  if env.ntpClientReady then 1 else 0

/-- The text rendered during the clock phase of `main_loop` (clock.py
lines 575-578 and 588-592): `display_time` reads `time.localtime()`
directly (line 349); `get_current_time` is not called on this path. -/
def main_loop_clock_text (env : TimeEnv) (fmt12 : Bool) : String :=
  display_time_text fmt12 env.localNow

/-- The colon states produced by the clock-phase tick loop
(clock.py lines 583-598): starting from `colon_on = False`, each of the
`n` iterations first toggles the flag and then shows it. -/
def clockTicks : ℕ → Bool → List Bool
  | 0, _ => []
  | n + 1, colon => (!colon) :: clockTicks n (!colon)

/-- `total_seconds = TIME_DISPLAY * 2` (clock.py line 572): the number of
one-second tick iterations the clock phase performs. -/
def clock_phase_total_seconds (time_display : ℕ) : ℕ :=
  time_display * 2

/-- The full sequence of colon states rendered during one clock phase
with `time_display` configured. -/
def clock_phase_colons (time_display : ℕ) : List Bool :=
  clockTicks (clock_phase_total_seconds time_display) false

/-- One iteration of the clock tick loop's timing (clock.py lines
594-597), given the monotonic clock value after this iteration's work:
`next_tick += 1.0`, then sleep `next_tick - time.monotonic()` only when
positive.  State is `(now, next_tick)`; `w ≥ 0` is the iteration's work
duration. -/
def tickIter (st : ℚ × ℚ) (w : ℚ) : ℚ × ℚ :=
  let now := st.1 + w
  let target := st.2 + 1
  (if 0 < target - now then now + (target - now) else now, target)

/-- Run the tick loop over a list of per-iteration work durations,
starting at monotonic time `t0` with `next_tick = time.monotonic()`
(clock.py line 582). -/
def tickRun (t0 : ℚ) (ws : List ℚ) : ℚ × ℚ :=
  ws.foldl tickIter (t0, t0)

/-- Python `s.strip()`: drop leading and trailing whitespace. -/
def pyStrip (s : String) : String :=
  String.mk
    (((s.data.dropWhile Char.isWhitespace).reverse.dropWhile
        Char.isWhitespace).reverse)

/-- `should_display_custom_text` (clock.py lines 536-561): given the
configuration, the `last_custom_text_time` global and `time.time()`,
returns the decision and the updated global.  The duty-cycle counter is
not an input. -/
def should_display_custom_text (enabled : Bool) (text : String)
    (interval_minutes : ℕ) (last : Option ℚ) (now : ℚ) : Bool × Option ℚ :=
  if !enabled || pyStrip text = "" then (false, last)
  else
    match last with
    | none => (true, some now)
    | some t =>
      if (interval_minutes : ℚ) * 60 ≤ now - t then (true, some now)
      else (false, last)

/-- The engine state relevant to the weather-refresh schedule:
`cycle_counter` and `cached_weather_info`. -/
structure EngineState where
  counter : ℕ
  cache : Option Reading

/-- The refetch condition of the weather phase (clock.py line 607):
`cycle_counter == 0 or cached_weather_info is None`. -/
def refetchTriggered (s : EngineState) : Bool :=
  s.counter == 0 || s.cache.isNone

/-- One fault-free duty cycle's effect on the schedule state
(clock.py lines 606-634): refetch when triggered, then
`cycle_counter = (cycle_counter + 1) % API_REFRESH_CYCLES`. -/
def dutyStep (fetchResult : Option Reading) (s : EngineState) : EngineState :=
  { counter := (s.counter + 1) % API_REFRESH_CYCLES,
    cache := if refetchTriggered s then fetchResult else s.cache }

/-- Iterate fault-free duty cycles; `fetches i` is what `fetch_weather`
returns in cycle `i` when triggered. -/
def runCycles (fetches : ℕ → Option Reading) (s : EngineState) : ℕ → EngineState
  | 0 => s
  | n + 1 => dutyStep (fetches n) (runCycles fetches s n)

/-- Whether a `main_loop` iteration runs to the end of its `try` body or
raises somewhere inside it. -/
inductive IterResult
  | normal
  | fault

/-- Effect of one `main_loop` iteration on the cycle counter, with the
cooldown sleep it performs (clock.py lines 634-642): a normal iteration
ends with the modulo increment; a raised exception skips it, is caught at
the loop boundary and sleeps 5 seconds. -/
def mainIter (r : IterResult) (c : ℕ) : ℕ × ℕ :=
  match r with
  | .normal => ((c + 1) % API_REFRESH_CYCLES, 0)
  | .fault => (c, 5)

/-- Run `main_loop` iterations over a list of outcomes; result is the
final cycle counter and the total cooldown slept. -/
def runIters (c : ℕ) : List IterResult → ℕ × ℕ
  | [] => (c, 0)
  | r :: rs =>
    let step := mainIter r c
    let rest := runIters step.1 rs
    (rest.1, step.2 + rest.2)

/-- The number of fault-free iterations in a list of outcomes. -/
def countNormal : List IterResult → ℕ
  | [] => 0
  | .normal :: rs => countNormal rs + 1
  | .fault :: rs => countNormal rs

/-- The number of faulted iterations in a list of outcomes. -/
def countFault : List IterResult → ℕ
  | [] => 0
  | .normal :: rs => countFault rs
  | .fault :: rs => countFault rs + 1

/-! Helper lemmas about the Python numeric primitives. -/

theorem floor_eq_of {q : ℚ} {n : ℤ} (h1 : (n : ℚ) ≤ q) (h2 : q < n + 1) :
    ⌊q⌋ = n :=
  Int.floor_eq_iff.mpr ⟨h1, by exact_mod_cast h2⟩

theorem pyRound_low {q : ℚ} (h : q - ⌊q⌋ < 1/2) : pyRound q = ⌊q⌋ := by
  unfold pyRound
  rw [if_pos h]

theorem pyRound_high {q : ℚ} (h : 1/2 < q - ⌊q⌋) : pyRound q = ⌊q⌋ + 1 := by
  have h2 : ¬(q - ⌊q⌋ < 1/2) := by linarith
  unfold pyRound
  rw [if_neg h2, if_pos h]

theorem pyRound_intCast (n : ℤ) : pyRound (n : ℚ) = n := by
  have hf : ⌊(n : ℚ)⌋ = n := Int.floor_intCast n
  have : (n : ℚ) - (⌊(n : ℚ)⌋ : ℚ) < 1/2 := by rw [hf]; norm_num
  rw [pyRound_low this, hf]

theorem pyRound_natCast (n : ℕ) : pyRound (n : ℚ) = (n : ℤ) := by
  have := pyRound_intCast (n : ℤ)
  rwa [Int.cast_natCast] at this

theorem pyTrunc_of_nonneg {q : ℚ} (h : 0 ≤ q) : pyTrunc q = ⌊q⌋ := by
  rw [pyTrunc, if_neg (not_lt.mpr h)]

/-! Claim theorems. -/

theorem runWrites_eq_changedCount (last : Option String) (ts : List String) :
    (runWrites last ts).2 = changedCount last ts := by
  induction ts generalizing last with
  | nil => rfl
  | cons t ts ih =>
    by_cases h : some t ≠ last
    · simp [runWrites, changedCount, write_display, h, ih]
    · push_neg at h
      simp [runWrites, changedCount, write_display, h, ih]

/-- C5: the render cache writes through to the hardware exactly when the
submitted text differs from the last rendered text, so the hardware write
count over any submission sequence equals the number of values that differ
from their predecessor, and two equal consecutive submissions cause at
most one hardware write. -/
theorem write_display_write_count :
    (∀ (last : Option String) (text : String),
        write_display last text =
          if some text ≠ last then (some text, true) else (last, false)) ∧
    (∀ (last : Option String) (ts : List String),
        (runWrites last ts).2 = changedCount last ts) ∧
    (∀ (last : Option String) (t : String), (runWrites last [t, t]).2 ≤ 1) := by
  refine ⟨fun _ _ => rfl, runWrites_eq_changedCount, fun last t => ?_⟩
  rw [runWrites_eq_changedCount]
  simp only [changedCount]
  split <;> simp

theorem tickIter_wake (st : ℚ × ℚ) (w : ℚ) :
    (tickIter st w).1 = max (st.1 + w) (st.2 + 1) := by
  simp only [tickIter]
  by_cases h : 0 < st.2 + 1 - (st.1 + w)
  · rw [if_pos h, max_eq_right (by linarith)]
    ring
  · rw [if_neg h, max_eq_left (by linarith)]

theorem tickRun_target_aux (ws : List ℚ) :
    ∀ st : ℚ × ℚ, (ws.foldl tickIter st).2 = st.2 + ws.length := by
  induction ws with
  | nil => intro st; simp
  | cons w ws ih =>
    intro st
    have h1 : (tickIter st w).2 = st.2 + 1 := rfl
    calc (List.foldl tickIter st (w :: ws)).2
        = (tickIter st w).2 + ws.length := ih (tickIter st w)
      _ = st.2 + (w :: ws).length := by rw [h1]; push_cast [List.length_cons]; ring

/-- C8: the tick loop's scheduled wake time is absolute: after `k`
iterations the target timestamp is the initial monotonic timestamp plus
`k` seconds, whatever the per-iteration work durations were, and each
iteration wakes at the later of end-of-work and the target — it sleeps
only the residual time and skips the sleep when the residual is
non-positive, so work does not accumulate drift. -/
theorem tick_targets_absolute :
    (∀ (t0 : ℚ) (ws : List ℚ), (tickRun t0 ws).2 = t0 + ws.length) ∧
    (∀ (st : ℚ × ℚ) (w : ℚ), (tickIter st w).1 = max (st.1 + w) (st.2 + 1)) :=
  ⟨fun t0 ws => tickRun_target_aux ws (t0, t0), tickIter_wake⟩

theorem runIters_spec (rs : List IterResult) :
    ∀ c : ℕ, c < API_REFRESH_CYCLES →
      (runIters c rs).1 = (c + countNormal rs) % API_REFRESH_CYCLES ∧
      (runIters c rs).2 = 5 * countFault rs := by
  induction rs with
  | nil =>
    intro c hc
    constructor
    · simp only [runIters, countNormal, Nat.add_zero]
      exact (Nat.mod_eq_of_lt hc).symm
    · rfl
  | cons r rs ih =>
    intro c hc
    cases r with
    | normal =>
      have h1 := ih ((c + 1) % API_REFRESH_CYCLES)
        (Nat.mod_lt _ (by simp [API_REFRESH_CYCLES]))
      simp only [runIters, mainIter, countNormal, countFault]
      refine ⟨?_, by simpa using h1.2⟩
      rw [h1.1]
      simp only [API_REFRESH_CYCLES]
      omega
    | fault =>
      have h1 := ih c hc
      simp only [runIters, mainIter, countNormal, countFault]
      exact ⟨h1.1, by rw [h1.2]; ring⟩

/-- C10: an unexpected exception inside a `main_loop` iteration is caught
at the loop boundary, sleeps the fixed 5-second cooldown and leaves the
cycle counter unchanged (the modulo increment is the last statement of
the `try` body), so over any run the final counter is the initial counter
advanced by the number of fault-free iterations only, and the total
cooldown is 5 seconds per fault. -/
theorem main_loop_fault_preserves_counter (c : ℕ) (rs : List IterResult)
    (hc : c < API_REFRESH_CYCLES) :
    mainIter .fault c = (c, 5) ∧
    (runIters c rs).1 = (c + countNormal rs) % API_REFRESH_CYCLES ∧
    (runIters c rs).2 = 5 * countFault rs :=
  ⟨rfl, runIters_spec rs c hc⟩

/-- Closed instance of `main_loop_fault_preserves_counter`: starting at
counter 3 with runs `[normal, fault, normal]`, the counter ends at 5 and
the cooldown totals 5 seconds. -/
theorem main_loop_fault_preserves_counter_witness :
    mainIter .fault 3 = (3, 5) ∧
    (runIters 3 [.normal, .fault, .normal]).1 = 5 ∧
    (runIters 3 [.normal, .fault, .normal]).2 = 5 := by
  have h := main_loop_fault_preserves_counter 3 [.normal, .fault, .normal]
    (by decide)
  exact ⟨h.1, by rw [h.2.1]; decide, by rw [h.2.2]; decide⟩

theorem fetch_from_step (unit : TempUnit) (outcomes : ℕ → AttemptResult)
    (attempt fuel : ℕ) (ht : (outcomes attempt).isTransient = true)
    (hlt : attempt < 2) :
    fetch_weather_from unit outcomes (fuel + 1) attempt =
      ((fetch_weather_from unit outcomes fuel (attempt + 1)).1,
       (fetch_weather_from unit outcomes fuel (attempt + 1)).2.1 + 1,
       (fetch_weather_from unit outcomes fuel (attempt + 1)).2.2 + 1) := by
  have hlt' : attempt < 3 - 1 := by omega
  cases h : outcomes attempt with
  | success t f hm => rw [h] at ht; simp [AttemptResult.isTransient] at ht
  | httpError s => rw [h] at ht; simp [AttemptResult.isTransient] at ht
  | parseError => rw [h] at ht; simp [AttemptResult.isTransient] at ht
  | timeout => simp [fetch_weather_from, h, hlt']
  | connectionError => simp [fetch_weather_from, h, hlt']
  | requestError => simp [fetch_weather_from, h, hlt']

theorem fetch_from_last (unit : TempUnit) (outcomes : ℕ → AttemptResult)
    (fuel : ℕ) (ht : (outcomes 2).isTransient = true) :
    fetch_weather_from unit outcomes (fuel + 1) 2 = (none, 1, 0) := by
  cases h : outcomes 2 with
  | success t f hm => rw [h] at ht; simp [AttemptResult.isTransient] at ht
  | httpError s => rw [h] at ht; simp [AttemptResult.isTransient] at ht
  | parseError => rw [h] at ht; simp [AttemptResult.isTransient] at ht
  | timeout => simp [fetch_weather_from, h]
  | connectionError => simp [fetch_weather_from, h]
  | requestError => simp [fetch_weather_from, h]

theorem fetch_from_http (unit : TempUnit) (outcomes : ℕ → AttemptResult)
    (fuel status attempt : ℕ) (h : outcomes attempt = .httpError status) :
    fetch_weather_from unit outcomes (fuel + 1) attempt = (none, 1, 0) := by
  simp [fetch_weather_from, h]

/-- C6: the weather fetch retries transient failures (timeout, connection
error) up to 3 attempts with an inter-attempt delay: three consecutive
transient failures yield Unavailable (`none`) after exactly 3 attempts
and 2 delays, while an HTTP 401 yields Unavailable after exactly 1
attempt with no retry and no delay. -/
theorem fetch_weather_retry_policy (unit : TempUnit)
    (outcomes outcomes401 : ℕ → AttemptResult)
    (htrans : ∀ i, i < 3 → (outcomes i).isTransient = true)
    (h401 : outcomes401 0 = .httpError 401) :
    fetch_weather unit outcomes = (none, 3, 2) ∧
    fetch_weather unit outcomes401 = (none, 1, 0) := by
  constructor
  · have h0 := htrans 0 (by omega)
    have h1 := htrans 1 (by omega)
    have h2 := htrans 2 (by omega)
    have s2 := fetch_from_last unit outcomes 0 h2
    norm_num at s2
    have s1 := fetch_from_step unit outcomes 1 1 h1 (by omega)
    norm_num [s2] at s1
    have s0 := fetch_from_step unit outcomes 0 2 h0 (by omega)
    norm_num [s1] at s0
    exact s0
  · have s0 := fetch_from_http unit outcomes401 2 401 0 h401
    norm_num at s0
    exact s0

/-- Closed instance of `fetch_weather_retry_policy`: all-timeout outcomes
give `(none, 3, 2)` and an immediate 401 gives `(none, 1, 0)`. -/
theorem fetch_weather_retry_policy_witness :
    fetch_weather .C (fun _ => .timeout) = (none, 3, 2) ∧
    fetch_weather .C (fun _ => .httpError 401) = (none, 1, 0) :=
  fetch_weather_retry_policy .C (fun _ => .timeout) (fun _ => .httpError 401)
    (fun _ _ => rfl) rfl

theorem runCycles_counter (fetches : ℕ → Option Reading) (s0 : EngineState)
    (hc : s0.counter < API_REFRESH_CYCLES) (n : ℕ) :
    (runCycles fetches s0 n).counter =
      (s0.counter + n) % API_REFRESH_CYCLES := by
  induction n with
  | zero => simp [runCycles, Nat.mod_eq_of_lt hc]
  | succ n ih =>
    simp only [runCycles, dutyStep]
    rw [ih]
    simp only [API_REFRESH_CYCLES]
    omega

/-- C7: a refetch happens in a duty cycle iff the cycle counter is 0
(has wrapped) or the weather cache is empty; the counter advances once
per fault-free duty cycle modulo `API_REFRESH_CYCLES`, and exactly
`API_REFRESH_CYCLES` cycles after a wrap the trigger fires again,
whatever the cache holds at that point. -/
theorem weather_refetch_schedule (fetches : ℕ → Option Reading)
    (s0 : EngineState) (hc : s0.counter < API_REFRESH_CYCLES) :
    (∀ s : EngineState,
        refetchTriggered s = true ↔ (s.counter = 0 ∨ s.cache = none)) ∧
    (∀ s : EngineState, ∀ r : Option Reading,
        (dutyStep r s).counter = (s.counter + 1) % API_REFRESH_CYCLES) ∧
    (∀ n : ℕ, (runCycles fetches s0 n).counter =
        (s0.counter + n) % API_REFRESH_CYCLES) ∧
    (s0.counter = 0 →
        refetchTriggered (runCycles fetches s0 API_REFRESH_CYCLES) = true) := by
  refine ⟨?_, fun s r => rfl, runCycles_counter fetches s0 hc, ?_⟩
  · intro s
    simp [refetchTriggered, Option.isNone_iff_eq_none]
  · intro h0
    have hcnt := runCycles_counter fetches s0 hc API_REFRESH_CYCLES
    rw [h0, Nat.zero_add, Nat.mod_self] at hcnt
    simp [refetchTriggered, hcnt]

/-- Closed instance of `weather_refetch_schedule`: starting at counter 0
with a valid cached reading and every fetch succeeding, the refetch
trigger fires again exactly `API_REFRESH_CYCLES` cycles later. -/
theorem weather_refetch_schedule_witness :
    refetchTriggered (runCycles (fun _ => some ⟨20, 18, 55⟩)
      ⟨0, some ⟨20, 18, 55⟩⟩ API_REFRESH_CYCLES) = true :=
  (weather_refetch_schedule (fun _ => some ⟨20, 18, 55⟩)
    ⟨0, some ⟨20, 18, 55⟩⟩ (by simp [API_REFRESH_CYCLES])).2.2.2 rfl

/-- C9: once the custom message has just been shown at time `t1`, a
second check at any time `t2` less than the configured interval later
does not show it again — over two duty cycles spanning 90 seconds with
interval 1 minute the message triggers exactly once — and for a
previously-shown message the trigger fires iff the elapsed real time
since the last showing has reached the interval; the duty-cycle counter
is not consulted. -/
theorem sdct_guard_false (enabled : Bool) (text : String) (interval : ℕ)
    (last : Option ℚ) (now : ℚ)
    (h : enabled = false ∨ pyStrip text = "") :
    should_display_custom_text enabled text interval last now
      = (false, last) := by
  rcases h with h | h <;> simp [should_display_custom_text, h]

theorem sdct_none (enabled : Bool) (text : String) (interval : ℕ) (now : ℚ)
    (he : enabled = true) (htx : ¬pyStrip text = "") :
    should_display_custom_text enabled text interval none now
      = (true, some now) := by
  simp [should_display_custom_text, he, htx]

theorem sdct_some (enabled : Bool) (text : String) (interval : ℕ)
    (s now : ℚ) (he : enabled = true) (htx : ¬pyStrip text = "") :
    should_display_custom_text enabled text interval (some s) now
      = if (interval : ℚ) * 60 ≤ now - s then (true, some now)
        else (false, some s) := by
  by_cases hle : (interval : ℚ) * 60 ≤ now - s <;>
    simp [should_display_custom_text, he, htx, hle]

/-- C9: once the custom message has just been shown at time `t1`, a
second check at any time `t2` less than the configured interval later
does not show it again — so two duty cycles spanning 90 seconds with
interval 1 minute trigger the message exactly once — and for a
previously-shown message the trigger fires iff the elapsed real time
since the last showing has reached the interval; the duty-cycle counter
is not an input of the decision. -/
theorem custom_text_once_per_interval (enabled : Bool) (text : String)
    (interval : ℕ) (last : Option ℚ) (t1 t2 : ℚ)
    (h1 : (should_display_custom_text enabled text interval last t1).1 = true)
    (h2 : t2 - t1 < (interval : ℚ) * 60) :
    (should_display_custom_text enabled text interval
        (should_display_custom_text enabled text interval last t1).2 t2).1
      = false ∧
    (should_display_custom_text enabled text interval last t1).2 = some t1 ∧
    (∀ s now : ℚ,
      (should_display_custom_text enabled text interval (some s) now).1 = true
        ↔ (enabled = true ∧ ¬pyStrip text = "" ∧
            (interval : ℚ) * 60 ≤ now - s)) := by
  by_cases he : enabled = true
  · by_cases htx : pyStrip text = ""
    · rw [sdct_guard_false enabled text interval last t1 (Or.inr htx)] at h1
      exact absurd h1 (by simp)
    · have hupd :
          (should_display_custom_text enabled text interval last t1).2
            = some t1 := by
        cases last with
        | none => rw [sdct_none enabled text interval t1 he htx]
        | some t =>
          rw [sdct_some enabled text interval t t1 he htx] at h1 ⊢
          by_cases hle : (interval : ℚ) * 60 ≤ t1 - t
          · rw [if_pos hle]
          · rw [if_neg hle] at h1
            exact absurd h1 (by simp)
      refine ⟨?_, hupd, ?_⟩
      · rw [hupd, sdct_some enabled text interval t1 t2 he htx,
          if_neg (by linarith)]
      · intro s now
        rw [sdct_some enabled text interval s now he htx]
        by_cases hle : (interval : ℚ) * 60 ≤ now - s
        · simp [hle, he, htx]
        · simp [hle]
  · rw [sdct_guard_false enabled text interval last t1
      (Or.inl (by revert he; cases enabled <;> simp))] at h1
    exact absurd h1 (by simp)

/-- C9 closed instance: interval 1 minute, never shown before, first
check at t = 0 triggers; the second check 45 seconds later (two duty
cycles spanning 90 s) does not trigger again. -/
theorem custom_text_once_per_interval_witness :
    (should_display_custom_text true "HELLO" 1
        (should_display_custom_text true "HELLO" 1 none 0).2 45).1 = false :=
  (custom_text_once_per_interval true "HELLO" 1 none 0 45
    (by rw [sdct_none true "HELLO" 1 0 rfl (by decide)])
    (by norm_num)).1

theorem clockTicks_length (n : ℕ) : ∀ b : Bool, (clockTicks n b).length = n := by
  induction n with
  | zero => intro b; rfl
  | succ n ih => intro b; simp [clockTicks, ih]

/-- C1 (evaluating the code at the failing configuration): the clock
phase runs `total_seconds = TIME_DISPLAY * 2` one-second ticks, so for
any configured duration `D` it performs `2 * D` colon-toggling ticks and
lasts `2 * D` seconds; at `time_display = 2` that is 4 ticks
`[true, false, true, false]`, not the 2 ticks over 2 seconds the claim
(and the configuration's documented seconds semantics) requires. -/
theorem clock_phase_runs_double_ticks :
    (∀ D : ℕ, (clock_phase_colons D).length = 2 * D) ∧
    clock_phase_total_seconds 2 = 4 ∧
    clock_phase_colons 2 = [true, false, true, false] ∧
    (clock_phase_colons 2).length ≠ 2 := by
  refine ⟨fun D => ?_, rfl, rfl, by decide⟩
  rw [clock_phase_colons, clockTicks_length]
  simp [clock_phase_total_seconds, Nat.mul_comm]

theorem floor_ninefifths : ⌊(9/5 : ℚ)⌋ = 1 :=
  floor_eq_of (by norm_num) (by norm_num)

theorem pyRound_ninefifths : pyRound (9/5 : ℚ) = 2 := by
  have h := pyRound_high (q := 9/5) (by rw [floor_ninefifths]; norm_num)
  rw [floor_ninefifths] at h
  exact h

theorem pyRound_one : pyRound (1 : ℚ) = 1 := by
  have h := pyRound_intCast 1
  push_cast at h
  exact h

/-- C2 counterexample: for the raw Celsius reading c = 1 with unit F,
`fetch_weather` stores `round(1) * 9/5 + 32 = 33.8`, which is not an
integer and not `round(1 * 9/5) + 32 = 34`; the display layer truncates
it to 33 ≠ 34. -/
theorem fahrenheit_conversion_cex :
    (fetch_success_values .F 1 0 0).temperature = 169/5 ∧
    (fetch_success_values .F 1 0 0).temperature ≠ ((34 : ℤ) : ℚ) ∧
    display_temperature_value (fetch_success_values .F 1 0 0).temperature
      = 33 ∧
    pyRound ((1 : ℚ) * (9/5)) + 32 = 34 ∧
    (33 : ℤ) ≠ 34 := by
  have htemp : (fetch_success_values .F 1 0 0).temperature = 169/5 := by
    show celsius_to_fahrenheit ((pyRound (1 : ℚ) : ℤ) : ℚ) = 169/5
    rw [pyRound_one]
    norm_num [celsius_to_fahrenheit]
  have hfl : ⌊(169/5 : ℚ)⌋ = 33 := floor_eq_of (by norm_num) (by norm_num)
  refine ⟨htemp, by rw [htemp]; norm_num, ?_, ?_, by norm_num⟩
  · rw [htemp, display_temperature_value, if_neg (by norm_num),
      pyTrunc_of_nonneg (by norm_num), hfl]
  · rw [one_mul, pyRound_ninefifths]
    decide

/-- C2 amended: with unit F the fetch boundary rounds the raw Celsius
reading to an integer first and then converts it, exactly once —
`round(c) * 9/5 + 32` — and the cached value is rendered by pure
truncation with no further conversion; but the converted value is a
float that need not be an integer, so fractional precision reaches the
display layer, where `int()` truncates it toward zero: the displayed
integer is `trunc(round(c) * 9/5 + 32)`, which can differ from
`round(c * 9/5) + 32`. -/
theorem fahrenheit_conversion_at_fetch_boundary (c feels hum : ℚ) :
    (fetch_success_values .F c feels hum).temperature
        = celsius_to_fahrenheit ((pyRound c : ℤ) : ℚ) ∧
    celsius_to_fahrenheit ((pyRound c : ℤ) : ℚ)
        = ((pyRound c : ℤ) : ℚ) * (9/5) + 32 ∧
    (∀ v : ℚ, display_temperature_value v = pyTrunc v) ∧
    (fetch_success_values .C c feels hum).temperature
        = ((pyRound c : ℤ) : ℚ) := by
  refine ⟨rfl, rfl, fun v => ?_, rfl⟩
  rw [display_temperature_value, pyTrunc]
  by_cases hv : v < 0
  · rw [if_pos hv, if_pos hv, abs_of_neg hv]
  · rw [if_neg hv, if_neg hv]

theorem pad2z_length_small : ∀ n : ℕ, n < 100 → (pad2z (n : ℤ)).length = 2 := by
  decide

theorem pyRound_hundred : pyRound (100 : ℚ) = 100 := by
  have h := pyRound_intCast 100
  push_cast at h
  exact h

/-- C3 counterexample: a humidity reading of 100 (a value the weather
API does return) renders as "rH100": five glyphs showing the number 100,
so the formatting does not clamp or truncate to the 0–99 range. -/
theorem humidity_format_no_clamp_cex :
    display_humidity_text 100 = "rH100" ∧
    (display_humidity_text 100).length = 5 ∧
    pyRound (100 : ℚ) = 100 ∧
    ¬((100 : ℤ) ≤ 99) := by
  have htext : display_humidity_text 100 = "rH100" := by
    rw [display_humidity_text, pyRound_hundred]
    rfl
  exact ⟨htext, by rw [htext]; rfl, pyRound_hundred, by norm_num⟩

/-- C3 amended: the humidity text is `"rH"` followed by the rounded
value zero-padded to a minimum of two digits — readings rounding to at
most 99 occupy exactly the 2-digit field (4 glyphs in all) — but the
formatting imposes no upper clamp, so readings rounding to 100 or more
render with three digits and overflow the 4-glyph display. -/
theorem humidity_format_two_digits (h : ℚ) (n : ℕ)
    (hn : pyRound h = (n : ℤ)) (hle : n ≤ 99) :
    display_humidity_text h = "rH" ++ pad2z (n : ℤ) ∧
    (display_humidity_text h).length = 4 := by
  have htext : display_humidity_text h = "rH" ++ pad2z (n : ℤ) := by
    rw [display_humidity_text, hn]
  refine ⟨htext, ?_⟩
  rw [htext, String.length_append, pad2z_length_small n (by omega)]
  decide

/-- C3 closed instance: a humidity of 55 renders as the 4-glyph "rH55". -/
theorem humidity_format_two_digits_witness :
    display_humidity_text 55 = "rH55" ∧
    (display_humidity_text 55).length = 4 := by
  have h := humidity_format_two_digits 55 55
    (by have := pyRound_natCast 55; push_cast at this ⊢; exact this)
    (by norm_num)
  exact ⟨by rw [h.1]; rfl, h.2⟩

/-- C4 counterexample: in an environment where the single NTP query
succeeds and converts to local time 5:30 while the local system clock
reads 6:45, the clock phase renders " 645" — the local system time —
whereas rendering the result of `get_current_time` would give " 530":
the duty-cycle clock rendering does not resolve time through
`get_current_time`. -/
theorem display_time_ignores_ntp_cex :
    main_loop_clock_text ⟨true, some 0, ⟨6, 45⟩, fun _ => ⟨5, 30⟩⟩ true
      = " 645" ∧
    get_current_time ⟨true, some 0, ⟨6, 45⟩, fun _ => ⟨5, 30⟩⟩
      = (⟨5, 30⟩ : Tm) ∧
    display_time_text true
        (get_current_time ⟨true, some 0, ⟨6, 45⟩, fun _ => ⟨5, 30⟩⟩)
      = " 530" ∧
    (" 645" : String) ≠ " 530" := by
  refine ⟨rfl, rfl, rfl, by decide⟩

/-- C4 amended: `get_current_time` does attempt at most one NTP query
per call and falls back to local system time, without raising, whenever
the client is missing or the query fails — but the clock rendering of
the duty-cycle loop reads `time.localtime()` directly, so the displayed
hour and minute derive from local system time and are unaffected by the
NTP client state or response. -/
theorem time_source_fallback_and_render_path (env : TimeEnv) (fmt12 : Bool)
    (b : Bool) (r : Option ℚ) :
    get_current_time_queries env ≤ 1 ∧
    (env.ntpClientReady = false → get_current_time env = env.localNow) ∧
    (env.ntpResponse = none → get_current_time env = env.localNow) ∧
    (∀ tx : ℚ, env.ntpClientReady = true → env.ntpResponse = some tx →
        get_current_time env = env.localOf tx) ∧
    main_loop_clock_text
        { env with ntpClientReady := b, ntpResponse := r } fmt12
      = main_loop_clock_text env fmt12 := by
  refine ⟨?_, ?_, ?_, ?_, rfl⟩
  · rw [get_current_time_queries]
    split <;> omega
  · intro hb
    rw [get_current_time, if_neg (by rw [hb]; simp)]
  · intro hr
    rw [get_current_time, hr]
    split <;> rfl
  · intro tx hb hr
    rw [get_current_time, if_pos hb, hr]

end RpiClock
